import Mathlib

/-!
Verification of the Slack notifier for AWS Cost Anomaly Detection
(`src/lambda/main.py`) against its natural-language specification.

The Python program is shallowly embedded: Python values flowing through the
lambda are modelled by the inductive type `PyVal` (JSON-like data plus `None`
and booleans), Python dictionaries by association lists with first-key-wins
lookup, and each function of `main.py` by an executable Lean function of the
same name (leading underscores dropped).  Python `int`/`float` are both
modelled by `ℚ`; `isinstance(x, (int, float))` (which in Python also accepts
`bool`, a subclass of `int`) is modelled by `pyToNum`.  The outbound HTTP call
and `json.loads` are stdlib effects and are parameters of the `handler`
model: `postOk i` tells whether the i-th POST succeeds, `parse` gives the
parse result of a message (`Option.none` = the parser raised).
-/

/-- A Python value as used by the lambda: `None`, booleans, numbers
(`int`/`float` merged as `ℚ`), strings, lists, and dicts (association lists,
first occurrence of a key wins, mirroring unique-key Python dicts). -/
inductive PyVal where
  | none
  | bool (b : Bool)
  | num (q : ℚ)
  | str (s : String)
  | list (elems : List PyVal)
  | dict (entries : List (String × PyVal))

/-- First-match lookup in a dict, `Option.none` when the key is absent
(models `k in d` / the raw storage of `d[k]`). -/
def dictFind : List (String × PyVal) → String → Option PyVal
  | [], _ => Option.none
  | (k, v) :: rest, key => if k = key then some v else dictFind rest key

/-- Python `d.get(k)`: the stored value, or `None` when the key is absent. -/
def dictGet (kvs : List (String × PyVal)) (key : String) : PyVal :=
  (dictFind kvs key).getD PyVal.none

/-- Python `d.get(k, default)`. -/
def dictGetD (kvs : List (String × PyVal)) (key : String) (default : PyVal) : PyVal :=
  (dictFind kvs key).getD default

/-- Python truthiness of a value (`bool(v)`). -/
def truthy : PyVal → Bool
  | .none => false
  | .bool b => b
  | .num q => !(q == 0)
  | .str s => !(s == "")
  | .list xs => !xs.isEmpty
  | .dict kvs => !kvs.isEmpty

/-- Python's value-level `a or b`. -/
def pyOr (a b : PyVal) : PyVal := if truthy a then a else b

/-- `isinstance(v, (int, float))`, returning the numeric value when it holds.
In Python `bool` is a subclass of `int`, so booleans count as numbers
(`True` = 1, `False` = 0). -/
def pyToNum : PyVal → Option ℚ
  | .num q => some q
  | .bool b => some (if b then 1 else 0)
  | _ => Option.none

/-- The loop of `_safe_get`: walk the key path, bailing out to the default on
`None` and (via Python's `except Exception`) on any non-dict intermediate. -/
def safeGetLoop (default : PyVal) : PyVal → List String → PyVal
  | cur, [] =>
    match cur with
    | .none => default
    | v => v
  | cur, k :: ks =>
    match cur with
    | .none => default
    | .dict kvs => safeGetLoop default (dictGet kvs k) ks
    | _ => default

/-- `_safe_get(d, path, default)` from `main.py`. -/
def safe_get (d : PyVal) (path : List String) (default : PyVal) : PyVal :=
  safeGetLoop default d path

/-- `_get_any(d, paths, default)` from `main.py`: first non-`None` resolution
among the candidate key paths, else the default. -/
def get_any (d : PyVal) (paths : List (List String)) (default : PyVal) : PyVal :=
  match paths with
  | [] => default
  | p :: ps =>
    match safe_get d p PyVal.none with
    | PyVal.none => get_any d ps default
    | v => v

/-- `_format_date` from `main.py`: truncate an ISO date-time string at the
first `T` (`date_str.split("T", 1)[0]`, i.e. the characters before the first
`T`); leave non-strings and date-only strings unchanged. -/
def format_date : PyVal → PyVal
  | .str s =>
    if s.data.contains 'T' then .str (String.mk (s.data.takeWhile (fun c => c ≠ 'T')))
    else .str s
  | v => v

/-- Characters removed by Python's `str.strip()`. -/
def isPySpace (c : Char) : Bool :=
  c = ' ' || c = '\t' || c = '\n' || c = '\r' || c = '\x0b' || c = '\x0c'

/-- Python `s.strip()`. -/
def pyStrip (s : String) : String :=
  String.mk (((s.data.dropWhile isPySpace).reverse.dropWhile isPySpace).reverse)

/-- Rendering of a number by `str()` / f-string interpolation.  Python floats
print in decimal; with numbers modelled as `ℚ` we print integers exactly and
other rationals as `num/den` (the repo's rendered fields never interpolate a
non-integer number outside `_format_*`, so only determinism matters here). -/
def numStr (q : ℚ) : String :=
  if q.den = 1 then toString q.num else toString q.num ++ "/" ++ toString q.den

mutual
/-- Python `repr(v)` as used for elements of containers. -/
def pyRepr : PyVal → String
  | .none => "None"
  | .bool b => if b then "True" else "False"
  | .num q => numStr q
  | .str s => "\x27" ++ s ++ "\x27"
  | .list xs => "[" ++ String.intercalate ", " (pyReprList xs) ++ "]"
  | .dict kvs => "\x7b" ++ String.intercalate ", " (pyReprEntries kvs) ++ "\x7d"

def pyReprList : List PyVal → List String
  | [] => []
  | x :: xs => pyRepr x :: pyReprList xs

def pyReprEntries : List (String × PyVal) → List String
  | [] => []
  | (k, v) :: rest => ("\x27" ++ k ++ "\x27: " ++ pyRepr v) :: pyReprEntries rest
end

/-- Python `str(v)` (f-string interpolation): like `repr` except that strings
print verbatim. -/
def pyStr : PyVal → String
  | .str s => s
  | v => pyRepr v

/-- Digits grouped in threes (input and output least-significant first). -/
def chunk3 : List Char → List (List Char)
  | [] => []
  | [a] => [[a]]
  | [a, b] => [[a, b]]
  | a :: b :: c :: rest => [a, b, c] :: chunk3 rest

/-- Insert thousands separators into a decimal digit string. -/
def commaGrouped (s : String) : String :=
  String.mk ((List.intercalate [','] (chunk3 s.data.reverse)).reverse)

/-- Python's `format(x, ",.2f")`: two decimals and thousands separators
(rounding of the third decimal approximated by round-half-up on `ℚ`). -/
def formatNum2 (q : ℚ) : String :=
  let c : ℤ := round (q * 100)
  let n := c.natAbs
  let ip := n / 100
  let fp := n % 100
  (if c < 0 then "-" else "")
    ++ commaGrouped (toString ip)
    ++ "." ++ (if fp < 10 then "0" else "") ++ toString fp

/-- The severity dict returned by `_get_severity_details` (keys `color`,
`emoji`, `label`). -/
structure SeverityDetails where
  color : String
  emoji : String
  label : String
deriving DecidableEq, Repr

/-- `_get_severity_details(impact)` from `main.py`; the argument is `None`
exactly when the call site's `isinstance(x, (int, float))` failed. -/
def get_severity_details : Option ℚ → SeverityDetails
  | Option.none => ⟨"#78909C", ":information_source:", "UNKNOWN"⟩
  | some impact =>
    if impact > 100 then ⟨"#C62828", ":rotating_light:", "HIGH"⟩
    else if impact > 50 then ⟨"#FFC107", ":warning:", "MEDIUM"⟩
    else ⟨"#2196F3", ":information_source:", "LOW"⟩

/-- `_get_account_info(anomaly)` from `main.py`: `(account_id, account_name)`
derived from the first root cause; `(None, None)` when there are no root
causes or the first entry has no truthy linked-account id. -/
def get_account_info (anomaly : PyVal) : Option String × PyVal :=
  let root_causes := pyOr (get_any anomaly [["RootCauses"], ["rootCauses"]] (PyVal.list [])) (PyVal.list [])
  match root_causes with
  | .list (rc0 :: _) =>
    let rc := pyOr rc0 (PyVal.dict [])
    let account_id := get_any rc [["LinkedAccount"], ["linkedAccount"]] PyVal.none
    if truthy account_id then
      let acct_name := get_any rc [["LinkedAccountName"], ["linkedAccountName"]] PyVal.none
      let clean_acct := pyStrip (pyStr account_id)
      (some clean_acct, acct_name)
    else (Option.none, PyVal.none)
  | _ => (Option.none, PyVal.none)

/-- The `fields` list assembled inside `_build_blocks_for_anomaly`
(factored out verbatim; the enclosing function recomputes the shared
`impact_total` lookup, which is pure). -/
def build_fields (anomaly : PyVal) : List PyVal :=
  let impact_total := get_any anomaly [["Impact", "TotalImpact"], ["impact", "totalImpact"]] PyVal.none
  let impact_text :=
    match pyToNum impact_total with
    | some q => "$" ++ formatNum2 q
    | Option.none => "n/a"
  let impact_pct := get_any anomaly [["Impact", "TotalImpactPercentage"], ["impact", "totalImpactPercentage"]] PyVal.none
  let impact_pct_text :=
    match pyToNum impact_pct with
    | some q => formatNum2 q ++ "%"
    | Option.none => "n/a"
  let start := get_any anomaly [["AnomalyStartDate"], ["anomalyStartDate"]] PyVal.none
  let endv := get_any anomaly [["AnomalyEndDate"], ["anomalyEndDate"]] PyVal.none
  let start_fmt := format_date start
  let end_fmt := format_date endv
  let windowFields :=
    if truthy start || truthy endv then
      [PyVal.dict [("type", PyVal.str "mrkdwn"),
        ("text", PyVal.str ("*Window*\n" ++ pyStr (pyOr start_fmt (PyVal.str "-")) ++ " → " ++ pyStr (pyOr end_fmt (PyVal.str "-"))))]]
    else []
  let root_causes := pyOr (get_any anomaly [["RootCauses"], ["rootCauses"]] (PyVal.list [])) (PyVal.list [])
  let rcFields :=
    match root_causes with
    | .list (rc0 :: _) =>
      let rc := pyOr rc0 (PyVal.dict [])
      let service := get_any rc [["Service"], ["service"]] PyVal.none
      let account := get_any rc [["LinkedAccount"], ["linkedAccount"]] PyVal.none
      let region := get_any rc [["Region"], ["region"]] PyVal.none
      let usage := get_any rc [["UsageType"], ["usageType"]] PyVal.none
      let _ := account  -- fetched but unused in `rc_parts`, as in the source
      let rc_parts :=
        (if truthy service then ["Service: " ++ pyStr service] else [])
          ++ (if truthy region then ["Region: " ++ pyStr region] else [])
          ++ (if truthy usage then ["Usage: " ++ pyStr usage] else [])
      if rc_parts.isEmpty then []
      else [PyVal.dict [("type", PyVal.str "mrkdwn"),
        ("text", PyVal.str ("*Root cause*\n" ++ String.intercalate " | " rc_parts))]]
    | _ => []
  let anomaly_id := get_any anomaly [["AnomalyId"], ["anomalyId"]] PyVal.none
  let idFields :=
    if truthy anomaly_id then
      [PyVal.dict [("type", PyVal.str "mrkdwn"),
        ("text", PyVal.str ("*Anomaly ID*\n" ++ pyStr anomaly_id))]]
    else []
  windowFields
    ++ [PyVal.dict [("type", PyVal.str "mrkdwn"), ("text", PyVal.str ("*Estimated impact*\n" ++ impact_text ++ " USD"))],
        PyVal.dict [("type", PyVal.str "mrkdwn"), ("text", PyVal.str ("*Impact %*\n" ++ impact_pct_text))]]
    ++ rcFields ++ idFields

/-- `_build_blocks_for_anomaly(anomaly)` from `main.py`. -/
def build_blocks_for_anomaly (anomaly : PyVal) : List PyVal :=
  let impact_total := get_any anomaly [["Impact", "TotalImpact"], ["impact", "totalImpact"]] PyVal.none
  let sev_details := get_severity_details (pyToNum impact_total)
  let emoji := sev_details.emoji
  let label := sev_details.label
  let header_title := emoji ++ " AWS Cost Anomaly Detected: " ++ label ++ " " ++ emoji
  let acct := get_account_info anomaly
  let acct_id := acct.1
  let acct_name := acct.2
  let detail_line : Option String :=
    if truthy acct_name then
      some (pyStr acct_name ++ " (" ++ acct_id.getD "None" ++ ")")
    else
      match acct_id with
      | some i => if i = "" then Option.none else some ("Account: " ++ i)
      | Option.none => Option.none
  let console_url := get_any anomaly [["anomalyDetailsLink"], ["AnomalyDetailsLink"]]
    (PyVal.str "https://console.aws.amazon.com/cost-management/home?#/anomaly-detection/anomalies")
  [PyVal.dict [("type", PyVal.str "header"),
     ("text", PyVal.dict [("type", PyVal.str "plain_text"), ("text", PyVal.str header_title), ("emoji", PyVal.bool true)])],
   PyVal.dict ([("type", PyVal.str "section")]
     ++ (match detail_line with
         | some t => [("text", PyVal.dict [("type", PyVal.str "mrkdwn"), ("text", PyVal.str t)])]
         | Option.none => [])
     ++ [("fields", PyVal.list (build_fields anomaly))]),
   PyVal.dict [("type", PyVal.str "actions"),
     ("elements", PyVal.list [PyVal.dict [("type", PyVal.str "button"),
       ("text", PyVal.dict [("type", PyVal.str "plain_text"), ("text", PyVal.str "Open in AWS Console")]),
       ("url", console_url),
       ("style", PyVal.str "primary")]])],
   PyVal.dict [("type", PyVal.str "context"),
     ("elements", PyVal.list [PyVal.dict [("type", PyVal.str "mrkdwn"),
       ("text", PyVal.str "Sent by Cost Anomaly Detection → SNS → Lambda → Slack")]])]]

/-- `_build_payload(anomaly, raw_text)` from `main.py`: the colored-attachment
message when a truthy anomaly id resolves, else the fallback message that
embeds the raw text verbatim inside triple backticks. -/
def build_payload (anomaly : PyVal) (raw_text : PyVal) : PyVal :=
  if truthy anomaly && truthy (get_any anomaly [["AnomalyId"], ["anomalyId"]] PyVal.none) then
    let impact := get_any anomaly [["Impact", "TotalImpact"], ["impact", "totalImpact"]] PyVal.none
    let sev_details := get_severity_details (pyToNum impact)
    PyVal.dict [("attachments", PyVal.list [PyVal.dict
      [("color", PyVal.str sev_details.color),
       ("blocks", PyVal.list (build_blocks_for_anomaly anomaly))]])]
  else
    PyVal.dict [("blocks", PyVal.list
      [PyVal.dict [("type", PyVal.str "header"),
         ("text", PyVal.dict [("type", PyVal.str "plain_text"),
           ("text", PyVal.str ":rotating_light: AWS Cost Anomaly Notification :rotating_light:"),
           ("emoji", PyVal.bool true)])],
       PyVal.dict [("type", PyVal.str "section"),
         ("text", PyVal.dict [("type", PyVal.str "mrkdwn"),
           ("text", PyVal.str ("```" ++ pyStr raw_text ++ "```"))])]])]

/-- The payload-normalization branch of `handler` (`main.py` lines 258-271):
from the result of `json.loads` (`Option.none` = the parser raised, absorbed
by `except Exception`) to `anomaly_payload` (`PyVal.none` = unrecognized). -/
def classifyParsed : Option PyVal → PyVal
  | Option.none => PyVal.none
  | some parsed =>
    match parsed with
    | .dict kvs =>
      if truthy (pyOr (dictGet kvs "AnomalyId") (dictGet kvs "anomalyId")) then
        PyVal.dict kvs
      else
        let detail :=
          match dictFind kvs "detail" with
          | some (.dict d) => d
          | _ => []
        if truthy (pyOr (dictGet detail "AnomalyId") (dictGet detail "anomalyId")) then
          PyVal.dict detail
        else PyVal.none
    | _ => PyVal.none

/-- Uncaught exceptions the handler can raise. -/
inductive HandlerErr where
  | missingWebhook
  | badRecord
  | transport
deriving DecidableEq, Repr

/-- Observable outcome of one invocation: the payloads actually handed to
`_post_to_slack` (in order) and the returned value or uncaught exception. -/
structure HandlerRun where
  posts : List PyVal
  result : Except HandlerErr PyVal

/-- One iteration of the `for record in records` loop up to (but excluding)
the POST: unwrap `record["Sns"]["Message"]`, normalize, and render.
`parse` models `json.loads` (`Option.none` = raised, absorbed by the
`except Exception`).  A record or `Sns` value that is truthy but not a dict
makes the uncaught attribute access raise (`HandlerErr.badRecord`). -/
def processRecord (parse : PyVal → Option PyVal) (record : PyVal) : Except HandlerErr PyVal :=
  match record with
  | .dict rkvs =>
    match pyOr (dictGet rkvs "Sns") (PyVal.dict []) with
    | .dict skvs =>
      let msg_str := dictGetD skvs "Message" (PyVal.str "")
      Except.ok (build_payload (classifyParsed (parse msg_str)) msg_str)
    | _ => Except.error HandlerErr.badRecord
  | _ => Except.error HandlerErr.badRecord

/-- The record loop of `handler`: `i` is the index of the next POST; returns
the payloads POSTed and the first uncaught error, if any.  A failing POST
(`postOk i = false`) is still a POST that was attempted, so its payload is
recorded before the error propagates and stops the loop. -/
def runRecords (parse : PyVal → Option PyVal) (postOk : ℕ → Bool) : ℕ → List PyVal → List PyVal × Option HandlerErr
  | _, [] => ([], Option.none)
  | i, r :: rs =>
    match processRecord parse r with
    | Except.error e => ([], some e)
    | Except.ok payload =>
      if postOk i then
        let rest := runRecords parse postOk (i + 1) rs
        (payload :: rest.1, rest.2)
      else ([payload], some HandlerErr.transport)

/-- `handler(event, context)` from `main.py`.  `webhook` models
`os.environ.get("SLACK_WEBHOOK_URL")`; `if not webhook_url` also rejects an
empty string.  The event is a dict (Lambda always passes one).  On success
the returned value is `{"status": "ok", "delivered": len(records)}`. -/
def handler (webhook : Option String) (postOk : ℕ → Bool) (parse : PyVal → Option PyVal)
    (event : List (String × PyVal)) : HandlerRun :=
  match webhook with
  | Option.none => ⟨[], Except.error HandlerErr.missingWebhook⟩
  | some url =>
    if url = "" then ⟨[], Except.error HandlerErr.missingWebhook⟩
    else
      match pyOr (dictGet event "Records") (PyVal.list []) with
      | .list records =>
        let run := runRecords parse postOk 0 records
        match run.2 with
        | Option.none =>
          ⟨run.1, Except.ok (PyVal.dict [("status", PyVal.str "ok"), ("delivered", PyVal.num records.length)])⟩
        | some e => ⟨run.1, Except.error e⟩
      | _ => ⟨[], Except.error HandlerErr.badRecord⟩

/-- A dict "contains an anomaly-identifier field" in the sense that either
spelling resolves to a truthy value (per the code, a present-but-falsy
identifier counts as absent; see C10). -/
def hasAnomalyId (kvs : List (String × PyVal)) : Bool :=
  truthy (dictGet kvs "AnomalyId") || truthy (dictGet kvs "anomalyId")

/-- Spec-side normalizer, written from the spec's words (§4.2): parse failure
or a non-object parse gives "unrecognized"; a flat truthy identifier makes the
object itself the root; else a `detail` object with a truthy identifier
becomes the root; else "unrecognized". -/
def normalizer_spec : Option PyVal → PyVal
  | Option.none => PyVal.none
  | some v =>
    match v with
    | .dict kvs =>
      if hasAnomalyId kvs then PyVal.dict kvs
      else
        match dictFind kvs "detail" with
        | some (.dict d) => if hasAnomalyId d then PyVal.dict d else PyVal.none
        | _ => PyVal.none
    | _ => PyVal.none

/-- Spec-side severity classifier, written from the spec's words (§4.3 and
§8): absent → UNKNOWN gray/info; x ≤ 50 → LOW blue/info; 50 < x ≤ 100 →
MEDIUM amber/warning; x > 100 → HIGH red/alert. -/
def severity_spec : Option ℚ → SeverityDetails
  | Option.none => ⟨"#78909C", ":information_source:", "UNKNOWN"⟩
  | some x =>
    if x ≤ 50 then ⟨"#2196F3", ":information_source:", "LOW"⟩
    else if 50 < x ∧ x ≤ 100 then ⟨"#FFC107", ":warning:", "MEDIUM"⟩
    else ⟨"#C62828", ":rotating_light:", "HIGH"⟩

/-- The dict lacks the anomaly-identifier key under both naming conventions
(key absent, not merely null). -/
def lacksIdEntries (kvs : List (String × PyVal)) : Prop :=
  dictFind kvs "AnomalyId" = Option.none ∧ dictFind kvs "anomalyId" = Option.none

/-- Is the value a Python list? -/
def PyVal.isList : PyVal → Bool
  | .list _ => true
  | _ => false

/-- Concrete anomaly for the C9 witness: only an identifier and an end date
(with a time-of-day part); impact, percentage and start date are absent. -/
def c9Sample : PyVal :=
  PyVal.dict [("AnomalyId", PyVal.str "a1"), ("AnomalyEndDate", PyVal.str "2025-11-02T00:00:00Z")]

/-- A full set of anomaly field values, used to build the "same payload" in
both naming conventions. -/
structure ConvSample where
  anomalyId : String
  startDate : String
  endDate : String
  totalImpact : ℚ
  totalImpactPercentage : ℚ
  service : String
  linkedAccount : String
  linkedAccountName : String
  region : String
  usageType : String
  detailsLink : String

/-- The sample encoded with capitalized (TitleCase) keys. -/
def encTitle (s : ConvSample) : PyVal :=
  PyVal.dict
    [("AnomalyId", PyVal.str s.anomalyId),
     ("AnomalyStartDate", PyVal.str s.startDate),
     ("AnomalyEndDate", PyVal.str s.endDate),
     ("Impact", PyVal.dict [("TotalImpact", PyVal.num s.totalImpact),
       ("TotalImpactPercentage", PyVal.num s.totalImpactPercentage)]),
     ("RootCauses", PyVal.list [PyVal.dict
       [("Service", PyVal.str s.service),
        ("LinkedAccount", PyVal.str s.linkedAccount),
        ("LinkedAccountName", PyVal.str s.linkedAccountName),
        ("Region", PyVal.str s.region),
        ("UsageType", PyVal.str s.usageType)]]),
     ("AnomalyDetailsLink", PyVal.str s.detailsLink)]

/-- The same sample encoded with lower-camel keys. -/
def encCamel (s : ConvSample) : PyVal :=
  PyVal.dict
    [("anomalyId", PyVal.str s.anomalyId),
     ("anomalyStartDate", PyVal.str s.startDate),
     ("anomalyEndDate", PyVal.str s.endDate),
     ("impact", PyVal.dict [("totalImpact", PyVal.num s.totalImpact),
       ("totalImpactPercentage", PyVal.num s.totalImpactPercentage)]),
     ("rootCauses", PyVal.list [PyVal.dict
       [("service", PyVal.str s.service),
        ("linkedAccount", PyVal.str s.linkedAccount),
        ("linkedAccountName", PyVal.str s.linkedAccountName),
        ("region", PyVal.str s.region),
        ("usageType", PyVal.str s.usageType)]]),
     ("anomalyDetailsLink", PyVal.str s.detailsLink)]

/-- The spec's example payload as a `ConvSample`, for the C7 witness. -/
def c7Sample : ConvSample :=
  ⟨"a1", "2025-11-01T00:00:00Z", "2025-11-02T00:00:00Z", 301/2, 123/10,
   "EC2", "123456789012", "prod", "us-east-1", "EC2: m5", "https://example.com/x"⟩

/-! ## Helper lemmas -/

theorem truthy_pyOr (a b : PyVal) : truthy (pyOr a b) = (truthy a || truthy b) := by
  unfold pyOr
  cases h : truthy a <;> simp [h]

theorem dictGet_nil (key : String) : dictGet [] key = PyVal.none := rfl

/-! ## C1 — payload normalizer shape selection -/

/-- C1 counterexample: the claim reads "if the parsed object directly contains
an anomaly-identifier field under either naming convention ..., that object
becomes the AnomalyRecord root".  The object `{"AnomalyId": ""}` directly
contains the field `AnomalyId`, yet the normalizer returns "unrecognized"
(`PyVal.none`), not the object. -/
theorem c1_counterexample :
    ("AnomalyId" ∈ List.map Prod.fst [("AnomalyId", PyVal.str "")]) ∧
    classifyParsed (some (PyVal.dict [("AnomalyId", PyVal.str "")])) = PyVal.none ∧
    PyVal.none ≠ PyVal.dict [("AnomalyId", PyVal.str "")] :=
  ⟨by simp, rfl, fun h => PyVal.noConfusion h⟩

/-- C1 (amended): as the claim, with "contains an anomaly-identifier field"
read as "the field is present with a truthy value" (a present identifier that
is null, empty, zero or false counts as absent, cf. C10): the normalizer
equals the spec-side normalizer on every parse result. -/
theorem c1_normalizer_refines_spec (p : Option PyVal) :
    classifyParsed p = normalizer_spec p := by
  cases p with
  | none => rfl
  | some v =>
    cases v with
    | dict kvs =>
      simp only [classifyParsed, normalizer_spec, hasAnomalyId, truthy_pyOr]
      rcases hd : dictFind kvs "detail" with _ | d
      · simp [hd, dictGet, dictFind, truthy]
      · cases d <;> simp [hd, dictGet, dictFind, truthy, truthy_pyOr]
    | none => rfl
    | bool b => rfl
    | num q => rfl
    | str s => rfl
    | list xs => rfl

/-! ## C2 — candidate key-path field resolution -/

/-- C2: `_get_any` walks the candidate paths in order and returns the first
path whose full traversal yields a non-`None` value; a traversal that reaches
a `None` partway yields nothing for that candidate; exhausting all candidates
yields the caller-supplied default. -/
theorem c2_field_resolution (d : PyVal) (default : PyVal) (p : List String)
    (ps : List (List String)) (kvs : List (String × PyVal)) (k : String) (ks : List String) :
    (get_any d [] default = default) ∧
    (safe_get d p PyVal.none ≠ PyVal.none → get_any d (p :: ps) default = safe_get d p PyVal.none) ∧
    (safe_get d p PyVal.none = PyVal.none → get_any d (p :: ps) default = get_any d ps default) ∧
    (dictGet kvs k = PyVal.none → safe_get (PyVal.dict kvs) (k :: ks) PyVal.none = PyVal.none) := by
  refine ⟨rfl, ?_, ?_, ?_⟩
  · intro h
    rcases hs : safe_get d p PyVal.none with _ | b | q | s | xs | es
    · exact absurd hs h
    all_goals simp only [get_any, hs]
  · intro h
    simp only [get_any, h]
  · intro h
    simp only [safe_get, safeGetLoop, h]
    cases ks <;> rfl

/-- Witness for C2 at concrete inputs: a two-path resolution where the first
path dies on a missing middle key and the second wins, plus the
all-exhausted default and the partway-`None` bail-out. -/
theorem c2_field_resolution_witness :
    (get_any (PyVal.dict [("a", PyVal.num 1)]) [] (PyVal.str "absent") = PyVal.str "absent") ∧
    (get_any (PyVal.dict [("a", PyVal.num 1)]) [["a"], ["b"]] (PyVal.str "absent") = PyVal.num 1) ∧
    (get_any (PyVal.dict [("a", PyVal.none), ("b", PyVal.num 2)]) [["a", "x"], ["b"]] (PyVal.str "absent")
      = get_any (PyVal.dict [("a", PyVal.none), ("b", PyVal.num 2)]) [["b"]] (PyVal.str "absent")) ∧
    (safe_get (PyVal.dict [("a", PyVal.none), ("b", PyVal.num 2)]) ["a", "x"] PyVal.none = PyVal.none) :=
  ⟨(c2_field_resolution (PyVal.dict [("a", PyVal.num 1)]) (PyVal.str "absent") ["a"] [["b"]] [] "" []).1,
   (c2_field_resolution (PyVal.dict [("a", PyVal.num 1)]) (PyVal.str "absent") ["a"] [["b"]] [] "" []).2.1
     (fun h => PyVal.noConfusion h),
   (c2_field_resolution (PyVal.dict [("a", PyVal.none), ("b", PyVal.num 2)]) (PyVal.str "absent")
     ["a", "x"] [["b"]] [] "" []).2.2.1 rfl,
   (c2_field_resolution (PyVal.dict [("a", PyVal.none), ("b", PyVal.num 2)]) (PyVal.str "absent")
     ["a", "x"] [["b"]] [("a", PyVal.none), ("b", PyVal.num 2)] "a" ["x"]).2.2.2 rfl⟩

/-! ## C3 — severity classifier -/

/-- C3: the severity classifier agrees everywhere with the spec-side
classifier (so each tier comes with its fixed color/icon/label), and the
tiers are characterized by HIGH ↔ x > 100, MEDIUM ↔ 50 < x ≤ 100,
LOW ↔ x ≤ 50, UNKNOWN for an absent amount.  Determinism and absence of
side effects hold because `get_severity_details` is a pure function. -/
theorem c3_severity_classifier (o : Option ℚ) (x : ℚ) :
    get_severity_details o = severity_spec o ∧
    ((get_severity_details (some x)).label = "HIGH" ↔ 100 < x) ∧
    ((get_severity_details (some x)).label = "MEDIUM" ↔ 50 < x ∧ x ≤ 100) ∧
    ((get_severity_details (some x)).label = "LOW" ↔ x ≤ 50) ∧
    (get_severity_details Option.none).label = "UNKNOWN" := by
  refine ⟨?_, ?_, ?_, ?_, rfl⟩
  · cases o with
    | none => rfl
    | some y =>
      by_cases h100 : y > 100
      · have hc : ¬ y ≤ 50 := by linarith
        have hd : ¬ (50 < y ∧ y ≤ 100) := fun hcon => by linarith [hcon.2]
        simp [get_severity_details, severity_spec, h100, hc, hd]
      · by_cases h50 : y > 50
        · have hc : ¬ y ≤ 50 := by linarith
          have hd : 50 < y ∧ y ≤ 100 := ⟨h50, by linarith⟩
          simp [get_severity_details, severity_spec, h100, h50, hc, hd]
        · have hc : y ≤ 50 := by linarith
          simp [get_severity_details, severity_spec, h100, h50, hc]
  · by_cases h100 : x > 100
    · simp [get_severity_details, h100]
    · by_cases h50 : x > 50 <;> simp [get_severity_details, h100, h50]
  · by_cases h100 : x > 100
    · have : ¬ (50 < x ∧ x ≤ 100) := fun hcon => by linarith [hcon.2]
      simp [get_severity_details, h100, this]
    · by_cases h50 : x > 50
      · have : 50 < x ∧ x ≤ 100 := ⟨h50, by linarith⟩
        simp [get_severity_details, h100, h50, this]
      · have : ¬ (50 < x ∧ x ≤ 100) := fun hcon => h50 hcon.1
        simp [get_severity_details, h100, h50, this]
  · by_cases h100 : x > 100
    · have : ¬ x ≤ 50 := by linarith
      simp [get_severity_details, h100, this]
    · by_cases h50 : x > 50
      · have : ¬ x ≤ 50 := by linarith
        simp [get_severity_details, h100, h50, this]
      · have : x ≤ 50 := by linarith
        simp [get_severity_details, h100, h50, this]

/-! ## C6 — missing webhook configuration -/

/-- C6: with the destination webhook URL unset, the invocation fails
immediately with the configuration error: no POST is made (`posts = []`) and
no record is touched, whatever the event, the parser, or the transport. -/
theorem c6_missing_webhook (postOk : ℕ → Bool) (parse : PyVal → Option PyVal)
    (event : List (String × PyVal)) :
    handler Option.none postOk parse event =
      ⟨[], Except.error HandlerErr.missingWebhook⟩ := rfl

/-! ## C4 / C10 — fallback rendering -/

/-- Helper shared by C4 and C10: a parsed object whose identifier is falsy
under both conventions, flat and inside a `detail` dict, normalizes to
"unrecognized". -/
theorem classifyParsed_eq_none_of_falsy (kvs : List (String × PyVal))
    (h1 : truthy (dictGet kvs "AnomalyId") = false)
    (h2 : truthy (dictGet kvs "anomalyId") = false)
    (h3 : ∀ d, dictFind kvs "detail" = some (PyVal.dict d) →
      truthy (dictGet d "AnomalyId") = false ∧ truthy (dictGet d "anomalyId") = false) :
    classifyParsed (some (PyVal.dict kvs)) = PyVal.none := by
  simp only [classifyParsed, truthy_pyOr, h1, h2, Bool.or_self, Bool.false_eq_true, if_false]
  rcases hd : dictFind kvs "detail" with _ | v
  · simp [hd, dictGet, dictFind, truthy, pyOr]
  · cases v with
    | dict d =>
      obtain ⟨hd1, hd2⟩ := h3 d hd
      simp [hd, truthy_pyOr, hd1, hd2]
    | none => simp [hd, dictGet, dictFind, truthy, pyOr]
    | bool b => simp [hd, dictGet, dictFind, truthy, pyOr]
    | num q => simp [hd, dictGet, dictFind, truthy, pyOr]
    | str s => simp [hd, dictGet, dictFind, truthy, pyOr]
    | list xs => simp [hd, dictGet, dictFind, truthy, pyOr]

/-- C4: an unparseable message (`parse` raised or returned a non-object), or
one that parses to an object lacking the identifier key under both
conventions both flat and inside `detail`, renders as the fallback: the fixed
generic header plus one section embedding the raw message verbatim inside
triple backticks, with no colored attachment — and a payload is always
produced (the record is not aborted). -/
theorem c4_fallback_rendering (s : String) (p : Option PyVal)
    (h : p = Option.none ∨
      (∃ v, p = some v ∧ ∀ kvs, v ≠ PyVal.dict kvs) ∨
      (∃ kvs, p = some (PyVal.dict kvs) ∧ lacksIdEntries kvs ∧
        (∀ d, dictFind kvs "detail" = some (PyVal.dict d) → lacksIdEntries d))) :
    classifyParsed p = PyVal.none ∧
    build_payload (classifyParsed p) (PyVal.str s) =
      PyVal.dict [("blocks", PyVal.list
        [PyVal.dict [("type", PyVal.str "header"),
           ("text", PyVal.dict [("type", PyVal.str "plain_text"),
             ("text", PyVal.str ":rotating_light: AWS Cost Anomaly Notification :rotating_light:"),
             ("emoji", PyVal.bool true)])],
         PyVal.dict [("type", PyVal.str "section"),
           ("text", PyVal.dict [("type", PyVal.str "mrkdwn"),
             ("text", PyVal.str ("```" ++ s ++ "```"))])]])] := by
  have hc : classifyParsed p = PyVal.none := by
    rcases h with rfl | ⟨v, rfl, hv⟩ | ⟨kvs, rfl, ⟨h1, h2⟩, hdet⟩
    · rfl
    · cases v with
      | dict kvs => exact absurd rfl (hv kvs)
      | none => rfl
      | bool b => rfl
      | num q => rfl
      | str s => rfl
      | list xs => rfl
    · refine classifyParsed_eq_none_of_falsy kvs ?_ ?_ ?_
      · simp [dictGet, h1, truthy]
      · simp [dictGet, h2, truthy]
      · intro d hd
        obtain ⟨hd1, hd2⟩ := hdet d hd
        exact ⟨by simp [dictGet, hd1, truthy], by simp [dictGet, hd2, truthy]⟩
  refine ⟨hc, ?_⟩
  rw [hc]
  rfl

/-- Witness for C4: a message that parses to an object with no identifier
key anywhere gets the fallback rendering with the raw text embedded. -/
theorem c4_fallback_rendering_witness :
    (some (PyVal.dict [("foo", PyVal.num 1)]) = (Option.none : Option PyVal) ∨
      (∃ v, some (PyVal.dict [("foo", PyVal.num 1)]) = some v ∧ ∀ kvs, v ≠ PyVal.dict kvs) ∨
      (∃ kvs, some (PyVal.dict [("foo", PyVal.num 1)]) = some (PyVal.dict kvs) ∧ lacksIdEntries kvs ∧
        (∀ d, dictFind kvs "detail" = some (PyVal.dict d) → lacksIdEntries d))) ∧
    (classifyParsed (some (PyVal.dict [("foo", PyVal.num 1)])) = PyVal.none ∧
     build_payload (classifyParsed (some (PyVal.dict [("foo", PyVal.num 1)]))) (PyVal.str "oops") =
      PyVal.dict [("blocks", PyVal.list
        [PyVal.dict [("type", PyVal.str "header"),
           ("text", PyVal.dict [("type", PyVal.str "plain_text"),
             ("text", PyVal.str ":rotating_light: AWS Cost Anomaly Notification :rotating_light:"),
             ("emoji", PyVal.bool true)])],
         PyVal.dict [("type", PyVal.str "section"),
           ("text", PyVal.dict [("type", PyVal.str "mrkdwn"),
             ("text", PyVal.str ("```" ++ "oops" ++ "```"))])]])]) :=
  ⟨Or.inr (Or.inr ⟨[("foo", PyVal.num 1)], rfl, ⟨rfl, rfl⟩, fun _ hd => Option.noConfusion hd⟩),
   c4_fallback_rendering "oops" (some (PyVal.dict [("foo", PyVal.num 1)]))
     (Or.inr (Or.inr ⟨[("foo", PyVal.num 1)], rfl, ⟨rfl, rfl⟩, fun _ hd => Option.noConfusion hd⟩))⟩

/-- C10: a parsed object whose anomaly-identifier field is falsy (empty
string, 0, false, or null) under both naming conventions, both flat and
nested under `detail`, is treated as unrecognized, and the produced payload
is exactly the one produced when the identifier is absent (the fallback). -/
theorem c10_falsy_identifier_is_unrecognized (kvs : List (String × PyVal)) (s : String)
    (h1 : truthy (dictGet kvs "AnomalyId") = false)
    (h2 : truthy (dictGet kvs "anomalyId") = false)
    (h3 : ∀ d, dictFind kvs "detail" = some (PyVal.dict d) →
      truthy (dictGet d "AnomalyId") = false ∧ truthy (dictGet d "anomalyId") = false) :
    classifyParsed (some (PyVal.dict kvs)) = PyVal.none ∧
    build_payload (classifyParsed (some (PyVal.dict kvs))) (PyVal.str s) =
      build_payload PyVal.none (PyVal.str s) := by
  have hc := classifyParsed_eq_none_of_falsy kvs h1 h2 h3
  exact ⟨hc, by rw [hc]⟩

/-- Witness for C10: identifiers present with the falsy values `""`, `0`,
`None` and `False`, flat and nested under `detail`, produce the fallback. -/
theorem c10_falsy_identifier_witness :
    (truthy (dictGet [("AnomalyId", PyVal.str ""), ("anomalyId", PyVal.num 0),
        ("detail", PyVal.dict [("AnomalyId", PyVal.none), ("anomalyId", PyVal.bool false)])] "AnomalyId") = false) ∧
    (truthy (dictGet [("AnomalyId", PyVal.str ""), ("anomalyId", PyVal.num 0),
        ("detail", PyVal.dict [("AnomalyId", PyVal.none), ("anomalyId", PyVal.bool false)])] "anomalyId") = false) ∧
    (classifyParsed (some (PyVal.dict [("AnomalyId", PyVal.str ""), ("anomalyId", PyVal.num 0),
        ("detail", PyVal.dict [("AnomalyId", PyVal.none), ("anomalyId", PyVal.bool false)])])) = PyVal.none ∧
     build_payload (classifyParsed (some (PyVal.dict [("AnomalyId", PyVal.str ""), ("anomalyId", PyVal.num 0),
        ("detail", PyVal.dict [("AnomalyId", PyVal.none), ("anomalyId", PyVal.bool false)])]))) (PyVal.str "m") =
      build_payload PyVal.none (PyVal.str "m")) :=
  ⟨rfl, rfl,
   c10_falsy_identifier_is_unrecognized
     [("AnomalyId", PyVal.str ""), ("anomalyId", PyVal.num 0),
      ("detail", PyVal.dict [("AnomalyId", PyVal.none), ("anomalyId", PyVal.bool false)])]
     "m" rfl rfl (by intro d hd; cases hd; exact ⟨rfl, rfl⟩)⟩

/-! ## C8 — account info resolution -/

/-- C8: `(account id, account name)` comes only from the first root-cause
entry.  (a) If the resolved root-cause value is the empty list or not a list
at all ("no root causes"), both are absent.  (b) If the first entry's
linked-account id is falsy, both are absent — the name is discarded with the
id even when resolvable, and (d) a name is never returned without an id.
(c) When the id is truthy, it is returned trimmed of surrounding whitespace
together with the independently resolved name.  (e) Entries after the first
are ignored: replacing them never changes the result. -/
theorem c8_account_info (a : PyVal) (rc0 : PyVal) (rest rest' : List PyVal)
    (kvs : List (String × PyVal)) :
    ((pyOr (get_any a [["RootCauses"], ["rootCauses"]] (PyVal.list [])) (PyVal.list []) = PyVal.list [] ∨
      (pyOr (get_any a [["RootCauses"], ["rootCauses"]] (PyVal.list [])) (PyVal.list [])).isList = false) →
      get_account_info a = (Option.none, PyVal.none)) ∧
    (pyOr (get_any a [["RootCauses"], ["rootCauses"]] (PyVal.list [])) (PyVal.list []) = PyVal.list (rc0 :: rest) →
      truthy (get_any (pyOr rc0 (PyVal.dict [])) [["LinkedAccount"], ["linkedAccount"]] PyVal.none) = false →
      get_account_info a = (Option.none, PyVal.none)) ∧
    (pyOr (get_any a [["RootCauses"], ["rootCauses"]] (PyVal.list [])) (PyVal.list []) = PyVal.list (rc0 :: rest) →
      truthy (get_any (pyOr rc0 (PyVal.dict [])) [["LinkedAccount"], ["linkedAccount"]] PyVal.none) = true →
      get_account_info a =
        (some (pyStrip (pyStr (get_any (pyOr rc0 (PyVal.dict [])) [["LinkedAccount"], ["linkedAccount"]] PyVal.none))),
         get_any (pyOr rc0 (PyVal.dict [])) [["LinkedAccountName"], ["linkedAccountName"]] PyVal.none)) ∧
    ((get_account_info a).1 = Option.none → (get_account_info a).2 = PyVal.none) ∧
    (get_account_info (PyVal.dict (("RootCauses", PyVal.list (rc0 :: rest)) :: kvs)) =
      get_account_info (PyVal.dict (("RootCauses", PyVal.list (rc0 :: rest')) :: kvs))) := by
  refine ⟨?_, ?_, ?_, ?_, rfl⟩
  · intro h
    rcases hv : pyOr (get_any a [["RootCauses"], ["rootCauses"]] (PyVal.list [])) (PyVal.list []) with
      _ | b | q | s | xs | es
    · simp [get_account_info, hv]
    · simp [get_account_info, hv]
    · simp [get_account_info, hv]
    · simp [get_account_info, hv]
    · rcases h with h | h
      · rw [hv] at h
        cases h
        simp [get_account_info, hv]
      · rw [hv] at h
        simp [PyVal.isList] at h
    · simp [get_account_info, hv]
  · intro hrc hid
    simp only [get_account_info]
    rw [hrc]
    simp [hid]
  · intro hrc hid
    simp only [get_account_info]
    rw [hrc]
    simp [hid]
  · intro h1
    rcases hv : pyOr (get_any a [["RootCauses"], ["rootCauses"]] (PyVal.list [])) (PyVal.list []) with
      _ | b | q | s | xs | es
    · simp [get_account_info, hv]
    · simp [get_account_info, hv]
    · simp [get_account_info, hv]
    · simp [get_account_info, hv]
    · cases xs with
      | nil => simp [get_account_info, hv]
      | cons rc0x restx =>
        by_cases hid : truthy (get_any (pyOr rc0x (PyVal.dict [])) [["LinkedAccount"], ["linkedAccount"]] PyVal.none) = true
        · simp [get_account_info, hv, hid] at h1
        · simp [get_account_info, hv, hid]
    · simp [get_account_info, hv]

/-- Witness for C8 at concrete inputs: no root causes; a first root cause
without a linked-account id (even though a name could be there); a first root
cause with a whitespace-padded id and a name; and a second entry that is
ignored. -/
theorem c8_account_info_witness :
    get_account_info (PyVal.dict []) = (Option.none, PyVal.none) ∧
    get_account_info (PyVal.dict [("RootCauses", PyVal.list
      [PyVal.dict [("LinkedAccountName", PyVal.str "orphan-name")]])]) = (Option.none, PyVal.none) ∧
    get_account_info (PyVal.dict [("RootCauses", PyVal.list
      [PyVal.dict [("LinkedAccount", PyVal.str " 123 "), ("LinkedAccountName", PyVal.str "prod")]])]) =
      (some "123", PyVal.str "prod") ∧
    (get_account_info (PyVal.dict [])).2 = PyVal.none ∧
    get_account_info (PyVal.dict [("RootCauses", PyVal.list
      [PyVal.dict [("LinkedAccount", PyVal.str "a")], PyVal.dict [("LinkedAccount", PyVal.str "b")]])]) =
    get_account_info (PyVal.dict [("RootCauses", PyVal.list
      [PyVal.dict [("LinkedAccount", PyVal.str "a")]])]) :=
  ⟨(c8_account_info (PyVal.dict []) PyVal.none [] [] []).1 (Or.inl rfl),
   (c8_account_info (PyVal.dict [("RootCauses", PyVal.list
      [PyVal.dict [("LinkedAccountName", PyVal.str "orphan-name")]])])
      (PyVal.dict [("LinkedAccountName", PyVal.str "orphan-name")]) [] [] []).2.1 rfl rfl,
   (c8_account_info (PyVal.dict [("RootCauses", PyVal.list
      [PyVal.dict [("LinkedAccount", PyVal.str " 123 "), ("LinkedAccountName", PyVal.str "prod")]])])
      (PyVal.dict [("LinkedAccount", PyVal.str " 123 "), ("LinkedAccountName", PyVal.str "prod")]) [] [] []).2.2.1 rfl rfl,
   (c8_account_info (PyVal.dict []) PyVal.none [] [] []).2.2.2.1 rfl,
   (c8_account_info (PyVal.dict [("RootCauses", PyVal.list
      [PyVal.dict [("LinkedAccount", PyVal.str "a")], PyVal.dict [("LinkedAccount", PyVal.str "b")]])])
      (PyVal.dict [("LinkedAccount", PyVal.str "a")]) [PyVal.dict [("LinkedAccount", PyVal.str "b")]] [] []).2.2.2.2⟩

/-! ## C9 — rendering is total, missing fields are defaulted or omitted -/

theorem truthy_none : truthy PyVal.none = false := rfl

theorem format_date_none : format_date PyVal.none = PyVal.none := rfl

theorem pyOr_none (b : PyVal) : pyOr PyVal.none b = b := rfl

theorem pyStr_str (s : String) : pyStr (PyVal.str s) = s := rfl

/-- C9: for any parsed anomaly object with a truthy identifier, rendering
always produces the attachment-shaped message (totality: `build_payload` and
`build_blocks_for_anomaly` are total Lean functions, so no input raises and a
message is always produced), the block list always has its four blocks
(header, section, actions, context), and individually missing or malformed
fields degrade independently: a non-numeric impact renders as "n/a", a
non-numeric impact percentage renders as "n/a", and a missing start endpoint
renders as "-" while the window row is still emitted when the end endpoint is
truthy. -/
theorem c9_rendering_total (anomaly raw : PyVal)
    (h1 : truthy anomaly = true)
    (h2 : truthy (get_any anomaly [["AnomalyId"], ["anomalyId"]] PyVal.none) = true) :
    (build_payload anomaly raw = PyVal.dict [("attachments", PyVal.list [PyVal.dict
      [("color", PyVal.str (get_severity_details (pyToNum
          (get_any anomaly [["Impact", "TotalImpact"], ["impact", "totalImpact"]] PyVal.none))).color),
       ("blocks", PyVal.list (build_blocks_for_anomaly anomaly))]])]) ∧
    (build_blocks_for_anomaly anomaly).length = 4 ∧
    (pyToNum (get_any anomaly [["Impact", "TotalImpact"], ["impact", "totalImpact"]] PyVal.none) = Option.none →
      PyVal.dict [("type", PyVal.str "mrkdwn"), ("text", PyVal.str ("*Estimated impact*\n" ++ "n/a" ++ " USD"))]
        ∈ build_fields anomaly) ∧
    (pyToNum (get_any anomaly [["Impact", "TotalImpactPercentage"], ["impact", "totalImpactPercentage"]] PyVal.none) = Option.none →
      PyVal.dict [("type", PyVal.str "mrkdwn"), ("text", PyVal.str ("*Impact %*\n" ++ "n/a"))]
        ∈ build_fields anomaly) ∧
    (get_any anomaly [["AnomalyStartDate"], ["anomalyStartDate"]] PyVal.none = PyVal.none →
      truthy (get_any anomaly [["AnomalyEndDate"], ["anomalyEndDate"]] PyVal.none) = true →
      PyVal.dict [("type", PyVal.str "mrkdwn"), ("text", PyVal.str ("*Window*\n" ++ "-" ++ " → "
          ++ pyStr (pyOr (format_date (get_any anomaly [["AnomalyEndDate"], ["anomalyEndDate"]] PyVal.none)) (PyVal.str "-"))))]
        ∈ build_fields anomaly) := by
  refine ⟨?_, ?_, ?_, ?_, ?_⟩
  · simp [build_payload, h1, h2]
  · simp [build_blocks_for_anomaly]
  · intro h
    simp only [build_fields, h]
    exact List.mem_append_left _ (List.mem_append_left _ (List.mem_append_right _ (List.mem_cons_self _ _)))
  · intro h
    simp only [build_fields, h]
    exact List.mem_append_left _ (List.mem_append_left _ (List.mem_append_right _
      (List.mem_cons_of_mem _ (List.mem_cons_self _ _))))
  · intro hs he
    simp only [build_fields, hs, he, truthy_none, format_date_none, pyOr_none, pyStr_str, Bool.false_or, if_true]
    exact List.mem_append_left _ (List.mem_append_left _ (List.mem_append_left _ (List.mem_cons_self _ _)))

/-- Witness for C9: on `c9Sample` the message is produced with the UNKNOWN
gray color, four blocks, "n/a" impact and percentage rows, and a window row
rendering the missing start as "-". -/
theorem c9_rendering_total_witness :
    truthy c9Sample = true ∧
    truthy (get_any c9Sample [["AnomalyId"], ["anomalyId"]] PyVal.none) = true ∧
    pyToNum (get_any c9Sample [["Impact", "TotalImpact"], ["impact", "totalImpact"]] PyVal.none) = Option.none ∧
    get_any c9Sample [["AnomalyStartDate"], ["anomalyStartDate"]] PyVal.none = PyVal.none ∧
    (build_payload c9Sample (PyVal.str "r") = PyVal.dict [("attachments", PyVal.list [PyVal.dict
      [("color", PyVal.str "#78909C"),
       ("blocks", PyVal.list (build_blocks_for_anomaly c9Sample))]])]) ∧
    (build_blocks_for_anomaly c9Sample).length = 4 ∧
    (PyVal.dict [("type", PyVal.str "mrkdwn"), ("text", PyVal.str "*Estimated impact*\nn/a USD")]
      ∈ build_fields c9Sample) ∧
    (PyVal.dict [("type", PyVal.str "mrkdwn"), ("text", PyVal.str "*Impact %*\nn/a")]
      ∈ build_fields c9Sample) ∧
    (PyVal.dict [("type", PyVal.str "mrkdwn"), ("text", PyVal.str "*Window*\n- → 2025-11-02")]
      ∈ build_fields c9Sample) :=
  ⟨rfl, rfl, rfl, rfl,
   (c9_rendering_total c9Sample (PyVal.str "r") rfl rfl).1,
   (c9_rendering_total c9Sample (PyVal.str "r") rfl rfl).2.1,
   (c9_rendering_total c9Sample (PyVal.str "r") rfl rfl).2.2.1 rfl,
   (c9_rendering_total c9Sample (PyVal.str "r") rfl rfl).2.2.2.1 rfl,
   (c9_rendering_total c9Sample (PyVal.str "r") rfl rfl).2.2.2.2 rfl rfl⟩

/-! ## C7 — naming-convention and nesting agnosticism -/

theorem classify_flat (kvs : List (String × PyVal))
    (h : truthy (pyOr (dictGet kvs "AnomalyId") (dictGet kvs "anomalyId")) = true) :
    classifyParsed (some (PyVal.dict kvs)) = PyVal.dict kvs := by
  simp [classifyParsed, h]

theorem classify_detail (kvs dkvs : List (String × PyVal))
    (h0 : truthy (pyOr (dictGet kvs "AnomalyId") (dictGet kvs "anomalyId")) = false)
    (hd : dictFind kvs "detail" = some (PyVal.dict dkvs))
    (h1 : truthy (pyOr (dictGet dkvs "AnomalyId") (dictGet dkvs "anomalyId")) = true) :
    classifyParsed (some (PyVal.dict kvs)) = PyVal.dict dkvs := by
  simp [classifyParsed, h0, hd, h1]

/-- C7: for every assignment of field values with a valid (non-empty)
identifier, the payload written with capitalized keys and the payload written
with lower-camel keys render to identical output, whatever the raw message
string; and the capitalized payload nested under a `detail` wrapper renders
identically to the same payload presented flat. -/
theorem c7_convention_agnostic (s : ConvSample) (r : PyVal) (h : s.anomalyId ≠ "") :
    build_payload (classifyParsed (some (encTitle s))) r =
      build_payload (classifyParsed (some (encCamel s))) r ∧
    build_payload (classifyParsed (some (PyVal.dict [("detail", encTitle s)]))) r =
      build_payload (classifyParsed (some (encTitle s))) r := by
  have hbeq : (s.anomalyId == "") = false := beq_eq_false_iff_ne.mpr h
  have htrT : truthy (pyOr (PyVal.str s.anomalyId) PyVal.none) = true := by
    simp [pyOr, truthy, hbeq]
  have htrC : truthy (pyOr PyVal.none (PyVal.str s.anomalyId)) = true := by
    simp [pyOr, truthy, hbeq]
  have e1 : classifyParsed (some (encTitle s)) = encTitle s := classify_flat _ htrT
  have e2 : classifyParsed (some (encCamel s)) = encCamel s := classify_flat _ htrC
  have e3 : classifyParsed (some (PyVal.dict [("detail", encTitle s)])) = encTitle s :=
    classify_detail _ _ rfl rfl htrT
  rw [e1, e2, e3]
  exact ⟨rfl, rfl⟩

/-- Witness for C7 at the spec's example field values. -/
theorem c7_convention_agnostic_witness :
    c7Sample.anomalyId ≠ "" ∧
    (build_payload (classifyParsed (some (encTitle c7Sample))) (PyVal.str "raw") =
       build_payload (classifyParsed (some (encCamel c7Sample))) (PyVal.str "raw") ∧
     build_payload (classifyParsed (some (PyVal.dict [("detail", encTitle c7Sample)]))) (PyVal.str "raw") =
       build_payload (classifyParsed (some (encTitle c7Sample))) (PyVal.str "raw")) :=
  ⟨by decide, c7_convention_agnostic c7Sample (PyVal.str "raw") (by decide)⟩

/-! ## C5 — invocation outcome and transport-failure propagation -/

/-- The record loop with every POST succeeding and every record processable
delivers every record: no error and one POST per record. -/
theorem runRecords_all_ok (parse : PyVal → Option PyVal) (postOk : ℕ → Bool) (rs : List PyVal) :
    ∀ i : ℕ, (∀ r ∈ rs, (processRecord parse r).isOk = true) →
      (∀ k, k < rs.length → postOk (i + k) = true) →
      (runRecords parse postOk i rs).2 = Option.none ∧
      (runRecords parse postOk i rs).1.length = rs.length := by
  induction rs with
  | nil => exact fun i _ _ => ⟨rfl, rfl⟩
  | cons r rs ih =>
    intro i hok hpost
    have h0 : (processRecord parse r).isOk = true := hok r (List.mem_cons_self r rs)
    obtain ⟨p, hp⟩ : ∃ p, processRecord parse r = Except.ok p := by
      cases hpr : processRecord parse r with
      | ok p => exact ⟨p, rfl⟩
      | error e => rw [hpr] at h0; simp [Except.isOk, Except.toBool] at h0
    have hi : postOk i = true := by simpa using hpost 0 (by simp)
    have ihh := ih (i + 1)
      (fun r hr => hok r (List.mem_cons_of_mem _ hr))
      (fun k hk => by
        have h2 := hpost (k + 1) (by simpa using Nat.succ_lt_succ hk)
        rw [show i + 1 + k = i + (k + 1) by omega]
        exact h2)
    simp [runRecords, hp, hi, ihh.1, ihh.2]

/-- The record loop with the first POST failure at index `j` stops there:
the transport error propagates and exactly `j + 1` POSTs were attempted. -/
theorem runRecords_fail (parse : PyVal → Option PyVal) (postOk : ℕ → Bool) (rs : List PyVal) :
    ∀ i j : ℕ, (∀ r ∈ rs, (processRecord parse r).isOk = true) →
      j < rs.length →
      (∀ k, k < j → postOk (i + k) = true) →
      postOk (i + j) = false →
      (runRecords parse postOk i rs).2 = some HandlerErr.transport ∧
      (runRecords parse postOk i rs).1.length = j + 1 := by
  induction rs with
  | nil => intro i j _ hj; exact absurd hj (by simp)
  | cons r rs ih =>
    intro i j hok hj hbef hfail
    have h0 : (processRecord parse r).isOk = true := hok r (List.mem_cons_self r rs)
    obtain ⟨p, hp⟩ : ∃ p, processRecord parse r = Except.ok p := by
      cases hpr : processRecord parse r with
      | ok p => exact ⟨p, rfl⟩
      | error e => rw [hpr] at h0; simp [Except.isOk, Except.toBool] at h0
    cases j with
    | zero =>
      have hi : postOk i = false := by simpa using hfail
      simp [runRecords, hp, hi]
    | succ j =>
      have hi : postOk i = true := by simpa using hbef 0 (Nat.succ_pos j)
      have ihh := ih (i + 1) j
        (fun r hr => hok r (List.mem_cons_of_mem _ hr))
        (by simpa using Nat.lt_of_succ_lt_succ (by simpa using hj))
        (fun k hk => by
          have h2 := hbef (k + 1) (Nat.succ_lt_succ hk)
          rw [show i + 1 + k = i + (k + 1) by omega]
          exact h2)
        (by
          rw [show i + 1 + j = i + (j + 1) by omega]
          exact hfail)
      simp [runRecords, hp, hi, ihh.1, ihh.2]

/-- C5: with the webhook configured, (1) an event without a `Records` value
is treated as zero records: no POST is made and `{status: "ok", delivered:
0}` is returned; (2) when every record is processable and every POST
succeeds, the handler returns `{status: "ok", delivered: n}` with `n` the
number of records and makes exactly `n` POSTs; (3) when the POST for record
`j` fails (HTTP or network failure, both modelled by `postOk j = false`),
the failure propagates as a hard error, the status object is never returned,
and no POST is attempted after the failing one (`j + 1` POSTs in total). -/
theorem c5_handler_outcomes (url : String) (postOk : ℕ → Bool) (parse : PyVal → Option PyVal)
    (event : List (String × PyVal)) (rs : List PyVal) (j : ℕ) (hurl : url ≠ "") :
    (dictGet event "Records" = PyVal.none →
      handler (some url) postOk parse event =
        ⟨[], Except.ok (PyVal.dict [("status", PyVal.str "ok"), ("delivered", PyVal.num 0)])⟩) ∧
    (pyOr (dictGet event "Records") (PyVal.list []) = PyVal.list rs →
      (∀ r ∈ rs, (processRecord parse r).isOk = true) →
      (∀ k, k < rs.length → postOk k = true) →
      (handler (some url) postOk parse event).result =
        Except.ok (PyVal.dict [("status", PyVal.str "ok"), ("delivered", PyVal.num rs.length)]) ∧
      (handler (some url) postOk parse event).posts.length = rs.length) ∧
    (pyOr (dictGet event "Records") (PyVal.list []) = PyVal.list rs →
      (∀ r ∈ rs, (processRecord parse r).isOk = true) →
      j < rs.length →
      (∀ k, k < j → postOk k = true) →
      postOk j = false →
      (handler (some url) postOk parse event).result = Except.error HandlerErr.transport ∧
      (handler (some url) postOk parse event).posts.length = j + 1) := by
  refine ⟨?_, ?_, ?_⟩
  · intro h
    simp [handler, hurl, h, pyOr, truthy, runRecords]
  · intro hrec hok hpost
    have hrr := runRecords_all_ok parse postOk rs 0 hok (fun k hk => by simpa using hpost k hk)
    constructor
    · simp [handler, hurl, hrec, hrr.1]
    · simp [handler, hurl, hrec, hrr.1, hrr.2]
  · intro hrec hok hj hbef hfail
    have hrr := runRecords_fail parse postOk rs 0 j hok hj
      (fun k hk => by simpa using hbef k hk) (by simpa using hfail)
    constructor
    · simp [handler, hurl, hrec, hrr.1]
    · simp [handler, hurl, hrec, hrr.1, hrr.2]

/-- Witness for C5: an empty event delivers zero with no POST; a one-record
event with a succeeding transport returns delivered 1 after one POST; the
same event with a failing transport propagates the error after the single
attempted POST. -/
theorem c5_handler_outcomes_witness :
    ("u" : String) ≠ "" ∧
    (handler (some "u") (fun _ => true) (fun _ => Option.none) [] =
      ⟨[], Except.ok (PyVal.dict [("status", PyVal.str "ok"), ("delivered", PyVal.num 0)])⟩) ∧
    ((handler (some "u") (fun _ => true) (fun _ => Option.none)
        [("Records", PyVal.list [PyVal.dict [("Sns", PyVal.dict [("Message", PyVal.str "x")])]])]).result =
      Except.ok (PyVal.dict [("status", PyVal.str "ok"), ("delivered", PyVal.num 1)]) ∧
     (handler (some "u") (fun _ => true) (fun _ => Option.none)
        [("Records", PyVal.list [PyVal.dict [("Sns", PyVal.dict [("Message", PyVal.str "x")])]])]).posts.length = 1) ∧
    ((handler (some "u") (fun _ => false) (fun _ => Option.none)
        [("Records", PyVal.list [PyVal.dict [("Sns", PyVal.dict [("Message", PyVal.str "x")])]])]).result =
      Except.error HandlerErr.transport ∧
     (handler (some "u") (fun _ => false) (fun _ => Option.none)
        [("Records", PyVal.list [PyVal.dict [("Sns", PyVal.dict [("Message", PyVal.str "x")])]])]).posts.length = 0 + 1) :=
  ⟨by decide,
   (c5_handler_outcomes "u" (fun _ => true) (fun _ => Option.none) [] [] 0 (by decide)).1 rfl,
   by
    have h := (c5_handler_outcomes "u" (fun _ => true) (fun _ => Option.none)
      [("Records", PyVal.list [PyVal.dict [("Sns", PyVal.dict [("Message", PyVal.str "x")])]])]
      [PyVal.dict [("Sns", PyVal.dict [("Message", PyVal.str "x")])]] 0 (by decide)).2.1 rfl
      (fun r hr => by rw [List.mem_singleton.mp hr]; rfl) (fun k _ => rfl)
    simpa using h,
   by
    have h := (c5_handler_outcomes "u" (fun _ => false) (fun _ => Option.none)
      [("Records", PyVal.list [PyVal.dict [("Sns", PyVal.dict [("Message", PyVal.str "x")])]])]
      [PyVal.dict [("Sns", PyVal.dict [("Message", PyVal.str "x")])]] 0 (by decide)).2.2 rfl
      (fun r hr => by rw [List.mem_singleton.mp hr]; rfl) (by decide)
      (fun k hk => absurd hk (Nat.not_lt_zero k)) rfl
    simpa using h⟩
